import Mathlib

/-
Verification of the source-rewriting scripts of this repository.

The repository consists of three Python scripts that each rewrite one
hardcoded JSX file:

* `migrate_phase.py` — writes a `.phase_backup` copy, then applies seven
  sequential `re.subn` substitutions renaming `phase`/`setPhase` tokens,
  then overwrites the target file.
* `fix_functional_updates.py` — writes a `.func_update_backup` copy, then
  applies two `re.sub` substitutions (with replacement functions) removing
  one-line functional-update calls, then overwrites the target file.
* `replace_ui_components.py` — reads the target as a list of lines and
  overwrites it with `lines[:3627] + [new_code] + lines[4196:]`, with no
  backup and no range validation.

The embedding below models the Python regex constructs actually used by
the scripts (`\b`, `\s*`, literals, the `(?:prev|p)` alternations and the
greedy `([^}]+)` capture, all over ASCII text) as executable character-list
matchers, and models `re.subn`'s left-to-right non-overlapping scan over
the original text.  Each script's durable-storage writes are modelled as an
ordered trace of `FileOp`s.
-/

namespace Spec2Proof

/-- Python `\w` on the ASCII range: letters, digits and underscore. -/
def isWordChar (c : Char) : Bool := c.isAlphanum || c = '_'

/-- Python `\s` on the ASCII range: space, tab, newline, carriage return,
vertical tab and form feed. -/
def isSpaceChar (c : Char) : Bool :=
  c = ' ' || c = '\t' || c = '\n' || c = '\r' || c = '\x0b' || c = '\x0c'

/-- Python `\b` immediately before a word character: holds at the start of
the text or after a non-word character. -/
def atWordBreak (prev : Option Char) : Bool :=
  match prev with
  | none => true
  | some c => !(isWordChar c)

/-- Python `\b` immediately after a word character: holds at the end of the
text or before a non-word character. -/
def atTailBreak (l : List Char) : Bool :=
  match l with
  | [] => true
  | c :: _ => !(isWordChar c)

/-- Consume an exact literal, returning the remaining text. -/
def eatLit : List Char → List Char → Option (List Char)
  | [], rest => some rest
  | p :: ps, c :: cs => if c = p then eatLit ps cs else none
  | _ :: _, [] => none

/-- Greedy `\s*`: consume the maximal leading whitespace run, returning its
length and the remaining text. -/
def eatSpaces : List Char → Nat × List Char
  | [] => (0, [])
  | c :: cs =>
    if isSpaceChar c then
      ((eatSpaces cs).1 + 1, (eatSpaces cs).2)
    else (0, c :: cs)

/-- A compiled pattern as used by `re.subn`: given the character preceding
the scan position (`none` at the start of the text) and the text from the
scan position on, return `none` (no match here) or the length of the
matched span together with its replacement text.  All patterns in the
scripts match at least one character. -/
def Matcher := Option Char → List Char → Option (Nat × List Char)

/-- The scan loop of Python `re.subn`: left to right over the original
text, non-overlapping; after a match of length `k + 1` scanning resumes
after the matched span of the original text (not inside the replacement),
otherwise it advances one character.  `fuel` bounds the number of scan
steps; every step consumes at least one character, so `fuel = length of
the text` never runs out. -/
def subnFuel (m : Matcher) : Nat → Option Char → List Char → List Char × Nat
  | 0, _, l => (l, 0)
  | _ + 1, _, [] => ([], 0)
  | fuel + 1, prev, c :: cs =>
    match m prev (c :: cs) with
    | some (Nat.succ k, r) =>
      match subnFuel m fuel ((c :: cs).get? k) (cs.drop k) with
      | (out, n) => (r ++ out, n + 1)
    | _ =>
      match subnFuel m fuel (some c) cs with
      | (out, n) => (c :: out, n)

/-- Python `re.subn pattern repl text`: the rewritten text and the number
of non-overlapping matches replaced. -/
def pySubn (m : Matcher) (s : String) : String × Nat :=
  match subnFuel m s.data.length none s.data with
  | (out, n) => (String.mk out, n)

/-- Sequential application of an ordered rule set: each rule consumes the
buffer produced by the previous rule; the per-rule change counts are
collected in order.  This is the shape of the straight-line
`content, countN = re.subn(...)` pipelines in both regex scripts. -/
def applyRules : List (String → String × Nat) → String → String × List Nat
  | [], s => (s, [])
  | r :: rs, s => ((applyRules rs (r s).1).1, (r s).2 :: (applyRules rs (r s).1).2)

/-- One durable-storage write performed by a script: the path written and
the full content written to it.  Each script's run is modelled as the
ordered list of its writes. -/
structure FileOp where
  path : String
  content : String
  deriving DecidableEq

/-- The hardcoded target path; all three scripts name this same file in
their `file_path` constant. -/
def file_path : String :=
  "Z:\\바이브코딩\\memory bank\\hahahahgo\\src\\components\\battle\\LegacyBattleApp.jsx"

namespace MigratePhase

/-- Pattern 1 of `migrate_phase.py`: `\bsetPhase\(` replaced by
`actions.setPhase(`. -/
def pattern1 : Matcher := fun prev l =>
  if atWordBreak prev then
    match eatLit "setPhase(".data l with
    | some _ => some ("setPhase(".length, "actions.setPhase(".data)
    | none => none
  else none

/-- Pattern 2 of `migrate_phase.py`: `\bphase\s*===` replaced by
`battle.phase ===`. -/
def pattern2 : Matcher := fun prev l =>
  if atWordBreak prev then
    match eatLit "phase".data l with
    | some r1 =>
      match eatLit "===".data (eatSpaces r1).2 with
      | some _ => some (5 + (eatSpaces r1).1 + 3, "battle.phase ===".data)
      | none => none
    | none => none
  else none

/-- Pattern 3 of `migrate_phase.py`: `\bphase\s*!==` replaced by
`battle.phase !==`. -/
def pattern3 : Matcher := fun prev l =>
  if atWordBreak prev then
    match eatLit "phase".data l with
    | some r1 =>
      match eatLit "!==".data (eatSpaces r1).2 with
      | some _ => some (5 + (eatSpaces r1).1 + 3, "battle.phase !==".data)
      | none => none
    | none => none
  else none

/-- Patterns 4-7 of `migrate_phase.py` share the shape
`<lead>\s*phase\b` for a leading punctuation character, replaced by a
fixed literal. -/
def punctPhase (lead : Char) (repl : String) : Matcher := fun _ l =>
  match l with
  | c :: rest =>
    if c = lead then
      match eatLit "phase".data (eatSpaces rest).2 with
      | some r2 =>
        if atTailBreak r2 then some (1 + (eatSpaces rest).1 + 5, repl.data) else none
      | none => none
    else none
  | [] => none

/-- Pattern 4 of `migrate_phase.py`: `\(\s*phase\b` replaced by
`(battle.phase`. -/
def pattern4 : Matcher := punctPhase '(' "(battle.phase"

/-- Pattern 5 of `migrate_phase.py`: `,\s*phase\b` replaced by
`, battle.phase`. -/
def pattern5 : Matcher := punctPhase ',' ", battle.phase"

/-- Pattern 6 of `migrate_phase.py`: `\{\s*phase\b` replaced by
`{ battle.phase` (braces written escaped). -/
def pattern6 : Matcher := punctPhase '\x7b' "\x7b battle.phase"

/-- Pattern 7 of `migrate_phase.py`: `\[\s*phase\b` replaced by
`[battle.phase`. -/
def pattern7 : Matcher := punctPhase '[' "[battle.phase"

/-- The seven substitutions of `migrate_phase.py`, in source order. -/
def rules : List (String → String × Nat) :=
  [fun s => pySubn pattern1 s, fun s => pySubn pattern2 s,
   fun s => pySubn pattern3 s, fun s => pySubn pattern4 s,
   fun s => pySubn pattern5 s, fun s => pySubn pattern6 s,
   fun s => pySubn pattern7 s]

/-- The whole in-memory transformation of `migrate_phase.py`: the final
content and the per-pattern change counts `count1..count7`. -/
def transform (content : String) : String × List Nat := applyRules rules content

/-- The durable-storage writes of a `migrate_phase.py` run, in order:
first the backup of the pre-transform content to `file_path +
".phase_backup"`, then the overwrite of the target with the transformed
content. -/
def run (content : String) : List FileOp :=
  [⟨file_path ++ ".phase_backup", content⟩, ⟨file_path, (transform content).1⟩]

end MigratePhase

namespace FixFunctionalUpdates

/-- Greedy `\s*([^}]+)\}\)\s*\)` tail shared by both patterns of
`fix_functional_updates.py`: the leading whitespace is consumed greedily
but gives characters back to the mandatory nonempty capture when the
capture would otherwise be empty (Python backtracking); the capture then
takes every character up to the closing brace.  Returns the captured group
and the text after the final closing parenthesis. -/
def fuGroupTail (r : List Char) : Option (List Char × List Char) :=
  let w := r.takeWhile (fun c => c ≠ '\x7d')
  let r2 := r.dropWhile (fun c => c ≠ '\x7d')
  let k := (w.takeWhile isSpaceChar).length
  let g := if k < w.length then w.drop k else w.drop (w.length - 1)
  if w.isEmpty then none
  else
    match eatLit "\x7d)".data r2 with
    | some r3 =>
      match eatLit ")".data (eatSpaces r3).2 with
      | some r5 => some (g, r5)
      | none => none
    | none => none

/-- One alternative of the second `(?:…)` alternation: the parameter word,
a comma, then the capture tail. -/
def fuAltTail (w : String) (r : List Char) : Option (List Char × List Char) :=
  match eatLit w.data r with
  | some r1 =>
    match eatLit ",".data r1 with
    | some r2 => fuGroupTail r2
    | none => none
  | none => none

/-- After the bound parameter: `\s*=>\s*\(\{\s*\.\.\.` then the second
alternation `(?:w1|w2),` (tried in order, as Python does) and the capture
tail. -/
def fuArrowTail (w1 w2 : String) (r : List Char) : Option (List Char × List Char) :=
  match eatLit "=>".data (eatSpaces r).2 with
  | some r1 =>
    match eatLit "(\x7b".data (eatSpaces r1).2 with
    | some r2 =>
      match eatLit "...".data (eatSpaces r2).2 with
      | some r3 => (fuAltTail w1 r3) <|> (fuAltTail w2 r3)
      | none => none
    | none => none
  | none => none

/-- After the opening call parenthesis: `\s*(?:w1|w2)` with ordered
backtracking over the two alternatives, then the arrow tail. -/
def fuBody (w1 w2 : String) (r : List Char) : Option (List Char × List Char) :=
  (match eatLit w1.data (eatSpaces r).2 with
   | some r1 => fuArrowTail w1 w2 r1
   | none => none) <|>
  (match eatLit w2.data (eatSpaces r).2 with
   | some r1 => fuArrowTail w1 w2 r1
   | none => none)

/-- Pattern 1 of `fix_functional_updates.py`:
`actions\.setPlayer\(\s*(?:prev|p)\s*=>\s*\(\{\s*\.\.\.(?:prev|p),\s*([^}]+)\}\)\s*\)`
with the replacement function producing
`actions.setPlayer({ ...player, <fields>})`. -/
def pattern1 : Matcher := fun _ l =>
  match eatLit "actions.setPlayer(".data l with
  | some r =>
    match fuBody "prev" "p" r with
    | some (g, rest) =>
      some (l.length - rest.length,
        "actions.setPlayer(\x7b ...player, ".data ++ g ++ "\x7d)".data)
    | none => none
  | none => none

/-- Pattern 2 of `fix_functional_updates.py`:
`actions\.setEnemy\(\s*(?:prev|e)\s*=>\s*\(\{\s*\.\.\.(?:prev|e),\s*([^}]+)\}\)\s*\)`
with the replacement function producing
`actions.setEnemy({ ...enemy, <fields>})`. -/
def pattern2 : Matcher := fun _ l =>
  match eatLit "actions.setEnemy(".data l with
  | some r =>
    match fuBody "prev" "e" r with
    | some (g, rest) =>
      some (l.length - rest.length,
        "actions.setEnemy(\x7b ...enemy, ".data ++ g ++ "\x7d)".data)
    | none => none
  | none => none

/-- The two substitutions of `fix_functional_updates.py`, in source
order. -/
def rules : List (String → String × Nat) :=
  [fun s => pySubn pattern1 s, fun s => pySubn pattern2 s]

/-- The whole in-memory transformation of `fix_functional_updates.py`:
the final content and the per-pattern change counts. -/
def transform (content : String) : String × List Nat := applyRules rules content

/-- The durable-storage writes of a `fix_functional_updates.py` run, in
order: first the backup of the pre-transform content to `file_path +
".func_update_backup"`, then the overwrite of the target with the
transformed content. -/
def run (content : String) : List FileOp :=
  [⟨file_path ++ ".func_update_backup", content⟩, ⟨file_path, (transform content).1⟩]

end FixFunctionalUpdates

namespace ReplaceUiComponents

/-- The literal replacement block `new_code` of
`replace_ui_components.py` (braces and apostrophes written as `\x7b`,
`\x7d`, `\x27` escapes). -/
def new_code : String := "        \x7b/* 플레이어/적 정보 + 중앙 정보 통합 레이아웃 */\x7d\n        <div style=\x7b\x7b display: \x27flex\x27, alignItems: \x27flex-start\x27, justifyContent: \x27flex-end\x27, marginBottom: \x2750px\x27, gap: \x27120px\x27, position: \x27relative\x27, marginTop: \x2740px\x27, paddingRight: \x2740px\x27 \x7d\x7d>\n          <EtherComparisonBar\n            battle=\x7bbattle\x7d\n            etherFinalValue=\x7betherFinalValue\x7d\n            enemyEtherFinalValue=\x7benemyEtherFinalValue\x7d\n            netFinalEther=\x7bnetFinalEther\x7d\n            position=\"top\"\n          />\n\n          \x7b/* 왼쪽: 플레이어 */\x7d\n          <div style=\x7b\x7b display: \x27flex\x27, flexDirection: \x27column\x27, alignItems: \x27flex-start\x27, gap: \x2712px\x27, minWidth: \x27360px\x27, position: \x27relative\x27, justifyContent: \x27flex-end\x27, paddingTop: \x27200px\x27 \x7d\x7d>\n            <PlayerEtherBox\n              currentCombo=\x7bcurrentCombo\x7d\n              battle=\x7bbattle\x7d\n              currentDeflation=\x7bcurrentDeflation\x7d\n              etherCalcPhase=\x7betherCalcPhase\x7d\n              turnEtherAccumulated=\x7bturnEtherAccumulated\x7d\n              etherPulse=\x7betherPulse\x7d\n              finalComboMultiplier=\x7bfinalComboMultiplier\x7d\n              multiplierPulse=\x7bmultiplierPulse\x7d\n            />\n            <PlayerHpBar\n              player=\x7bplayer\x7d\n              playerHit=\x7bplayerHit\x7d\n              playerBlockAnim=\x7bplayerBlockAnim\x7d\n              playerOverdriveFlash=\x7bplayerOverdriveFlash\x7d\n              effectiveAgility=\x7beffectiveAgility\x7d\n              dulledLevel=\x7bdulledLevel\x7d\n            />\n          </div>\n\n          <CentralPhaseDisplay\n            battle=\x7bbattle\x7d\n            totalSpeed=\x7btotalSpeed\x7d\n            MAX_SPEED=\x7bMAX_SPEED\x7d\n            MAX_SUBMIT_CARDS=\x7bMAX_SUBMIT_CARDS\x7d\n            redrawHand=\x7bredrawHand\x7d\n            canRedraw=\x7bcanRedraw\x7d\n            startResolve=\x7bstartResolve\x7d\n            playSound=\x7bplaySound\x7d\n            actions=\x7bactions\x7d\n            willOverdrive=\x7bwillOverdrive\x7d\n            etherSlots=\x7betherSlots\x7d\n            player=\x7bplayer\x7d\n            beginResolveFromRespond=\x7bbeginResolveFromRespond\x7d\n            rewindToSelect=\x7brewindToSelect\x7d\n            rewindUsed=\x7brewindUsed\x7d\n            respondSnapshot=\x7brespondSnapshot\x7d\n            autoProgress=\x7bautoProgress\x7d\n            etherFinalValue=\x7betherFinalValue\x7d\n            enemy=\x7benemy\x7d\n            finishTurn=\x7bfinishTurn\x7d\n          />\n\n          <EtherComparisonBar\n            battle=\x7bbattle\x7d\n            etherFinalValue=\x7betherFinalValue\x7d\n            enemyEtherFinalValue=\x7benemyEtherFinalValue\x7d\n            netFinalEther=\x7bnetFinalEther\x7d\n            position=\"bottom\"\n          />\n\n          \x7b/* 오른쪽: 적 */\x7d\n          <div style=\x7b\x7b display: \x27flex\x27, flexDirection: \x27column\x27, alignItems: \x27flex-end\x27, gap: \x2712px\x27, minWidth: \x27360px\x27, position: \x27relative\x27, justifyContent: \x27center\x27, paddingTop: \x27120px\x27 \x7d\x7d>\n            \x7bsoulShatter && (\n              <div className=\"soul-shatter-banner\">\n                <div className=\"soul-shatter-text\">영혼파괴!</div>\n              </div>\n            )\x7d\n            <EnemyEtherBox\n              enemyCombo=\x7benemyCombo\x7d\n              battle=\x7bbattle\x7d\n              insightReveal=\x7binsightReveal\x7d\n              enemyCurrentDeflation=\x7benemyCurrentDeflation\x7d\n              enemyEtherCalcPhase=\x7benemyEtherCalcPhase\x7d\n              enemyTurnEtherAccumulated=\x7benemyTurnEtherAccumulated\x7d\n              COMBO_MULTIPLIERS=\x7bCOMBO_MULTIPLIERS\x7d\n            />\n            <EnemyHpBar\n              battle=\x7bbattle\x7d\n              previewDamage=\x7bpreviewDamage\x7d\n              dulledLevel=\x7bdulledLevel\x7d\n              enemy=\x7benemy\x7d\n              enemyHit=\x7benemyHit\x7d\n              enemyBlockAnim=\x7benemyBlockAnim\x7d\n              soulShatter=\x7bsoulShatter\x7d\n              groupedEnemyMembers=\x7bgroupedEnemyMembers\x7d\n              enemyOverdriveFlash=\x7benemyOverdriveFlash\x7d\n              enemyEtherValue=\x7benemyEtherValue\x7d\n              enemyTransferPulse=\x7benemyTransferPulse\x7d\n              enemySoulScale=\x7benemySoulScale\x7d\n              formatCompactValue=\x7bformatCompactValue\x7d\n            />\n          </div>\n        </div>\n      </div>\n"

/-- The splice of `replace_ui_components.py`:
`new_lines = lines[:3627] + [new_code] + lines[4196:]`.  There is no
validation of the interval against the document length. -/
def new_lines (lines : List String) : List String :=
  lines.take 3627 ++ [new_code] ++ lines.drop 4196

/-- The durable-storage writes of a `replace_ui_components.py` run: the
single overwrite of the target with the spliced lines (`f.writelines`,
i.e. the concatenation of the lines).  The script writes no backup. -/
def run (lines : List String) : List FileOp :=
  [⟨file_path, String.join (new_lines lines)⟩]

end ReplaceUiComponents

/-- Modelled from the spec: the general Variant B line-range replacement
rule, which is absent from `src/` as a reusable definition — the source
only contains its instance `lines[:3627] + [new_code] + lines[4196:]`.
Following the claim's convention for the half-open 1-indexed interval
`[start, stop)`, the output is `lines[0:start-1] ++ B ++ lines[stop-1:]`. -/
def lineRangeRule (lines : List String) (start stop : Nat) (B : List String) : List String :=
  lines.take (start - 1) ++ B ++ lines.drop (stop - 1)

/-
Helper lemmas shared by several claims.
-/

/-- If the scan loop reports zero replacements, the text is returned
unchanged, whatever the matcher and the fuel. -/
theorem subnFuel_count_zero (m : Matcher) :
    ∀ (fuel : Nat) (prev : Option Char) (l : List Char),
      (subnFuel m fuel prev l).2 = 0 → (subnFuel m fuel prev l).1 = l := by
  intro fuel
  induction fuel with
  | zero => intro prev l _; rfl
  | succ f ih =>
    intro prev l h
    cases l with
    | nil => rfl
    | cons c cs =>
      rcases hm : m prev (c :: cs) with _ | ⟨⟨_ | k⟩, r⟩
      · simp only [subnFuel, hm] at h ⊢
        exact congrArg (fun o => c :: o) (ih (some c) cs h)
      · simp only [subnFuel, hm] at h ⊢
        exact congrArg (fun o => c :: o) (ih (some c) cs h)
      · simp only [subnFuel, hm] at h
        omega

/-- On a document shorter than the left endpoint of the hardcoded
interval, the splice of `replace_ui_components.py` keeps every line and
appends the replacement block. -/
theorem new_lines_short (lines : List String) (h : lines.length ≤ 3627) :
    ReplaceUiComponents.new_lines lines = lines ++ [ReplaceUiComponents.new_code] := by
  unfold ReplaceUiComponents.new_lines
  rw [List.take_of_length_le h, List.drop_eq_nil_of_le (by omega)]
  simp

/-
The claims.
-/

/-- C1 (amended): for every `migrate_phase.py` or `fix_functional_updates.py`
run — successful or failed, a failed run being modelled as a stopping
point `t ++ s = trace` with only the prefix `t` performed — if the target
file was written within `t`, then `t` also contains a backup write
carrying the pre-run content to the suffixed backup path.  The claim as
frozen also asserted this of `replace_ui_components.py`, which writes no
backup; see the counterexample. -/
theorem backup_precedes_mutation_regex_scripts
    (c : String) (t s : List FileOp)
    (h : t ++ s = MigratePhase.run c ∨ t ++ s = FixFunctionalUpdates.run c)
    (hw : ∃ op, op ∈ t ∧ op.path = file_path) :
    ∃ op, op ∈ t ∧ op.content = c ∧
      (op.path = file_path ++ ".phase_backup" ∨
       op.path = file_path ++ ".func_update_backup") := by
  rcases t with _ | ⟨x, t1⟩
  · rcases hw with ⟨op, hmem, _⟩
    exact absurd hmem (List.not_mem_nil op)
  · rcases h with h | h
    · have hx : x = ⟨file_path ++ ".phase_backup", c⟩ := by
        have h0 := congrArg (fun l => l.head?) h
        simpa [MigratePhase.run] using h0
      exact ⟨x, List.mem_cons_self x t1, by rw [hx], Or.inl (by rw [hx])⟩
    · have hx : x = ⟨file_path ++ ".func_update_backup", c⟩ := by
        have h0 := congrArg (fun l => l.head?) h
        simpa [FixFunctionalUpdates.run] using h0
      exact ⟨x, List.mem_cons_self x t1, by rw [hx], Or.inr (by rw [hx])⟩

/-- Witness for C1's amended theorem: the completed `migrate_phase.py` run
on content `"phase"` satisfies the hypotheses, and the backup write is
found in the trace. -/
theorem backup_precedes_mutation_regex_scripts_witness :
    (MigratePhase.run "phase" ++ [] = MigratePhase.run "phase" ∨
     MigratePhase.run "phase" ++ [] = FixFunctionalUpdates.run "phase") ∧
    (∃ op, op ∈ MigratePhase.run "phase" ∧ op.path = file_path) ∧
    (∃ op, op ∈ MigratePhase.run "phase" ∧ op.content = "phase" ∧
      (op.path = file_path ++ ".phase_backup" ∨
       op.path = file_path ++ ".func_update_backup")) :=
  ⟨Or.inl (by simp),
   ⟨⟨file_path, (MigratePhase.transform "phase").1⟩, by simp [MigratePhase.run], rfl⟩,
   backup_precedes_mutation_regex_scripts "phase" (MigratePhase.run "phase") []
     (Or.inl (by simp))
     ⟨⟨file_path, (MigratePhase.transform "phase").1⟩, by simp [MigratePhase.run], rfl⟩⟩

/-- C1 counterexample: the `replace_ui_components.py` run on a three-line
document changes the target content, yet every write in its trace goes to
the target path itself — no backup file with the pre-run content is ever
written. -/
theorem splice_overwrites_without_backup :
    String.join (ReplaceUiComponents.new_lines ["a\n", "b\n", "c\n"])
      ≠ String.join ["a\n", "b\n", "c\n"] ∧
    ReplaceUiComponents.run ["a\n", "b\n", "c\n"]
      = [⟨file_path, String.join (ReplaceUiComponents.new_lines ["a\n", "b\n", "c\n"])⟩] ∧
    ∀ op, op ∈ ReplaceUiComponents.run ["a\n", "b\n", "c\n"] → op.path = file_path := by
  refine ⟨?_, rfl, ?_⟩
  · rw [new_lines_short ["a\n", "b\n", "c\n"] (by simp)]
    decide
  · intro op hop
    simp only [ReplaceUiComponents.run, List.mem_singleton] at hop
    rw [hop]

/-- C2 (amended): the line-range script performs no interval validation at
all.  On any document with fewer than 4196 lines — where the hardcoded
interval `[3628, 4197)` violates `1 <= start <= end <= len(lines)+1` — the
splice silently clamps (Python slicing), producing the first 3627 lines
followed by the replacement block, and the run still writes this output to
the target instead of aborting with a `RangeError`. -/
theorem splice_ignores_range_validation
    (lines : List String) (h : lines.length < 4196) :
    ReplaceUiComponents.new_lines lines
      = lines.take 3627 ++ [ReplaceUiComponents.new_code] ∧
    ReplaceUiComponents.run lines
      = [⟨file_path, String.join (lines.take 3627 ++ [ReplaceUiComponents.new_code])⟩] := by
  have hd : lines.drop 4196 = [] := List.drop_eq_nil_of_le (by omega)
  have h2 : ReplaceUiComponents.new_lines lines
      = lines.take 3627 ++ [ReplaceUiComponents.new_code] := by
    unfold ReplaceUiComponents.new_lines
    rw [hd]
    simp
  exact ⟨h2, by simp [ReplaceUiComponents.run, h2]⟩

/-- Witness for C2's amended theorem at a one-line document. -/
theorem splice_ignores_range_validation_witness :
    (["x\n"] : List String).length < 4196 ∧
    (ReplaceUiComponents.new_lines ["x\n"]
       = (["x\n"] : List String).take 3627 ++ [ReplaceUiComponents.new_code] ∧
     ReplaceUiComponents.run ["x\n"]
       = [⟨file_path,
           String.join ((["x\n"] : List String).take 3627 ++ [ReplaceUiComponents.new_code])⟩]) :=
  ⟨by simp, splice_ignores_range_validation ["x\n"] (by simp)⟩

/-- C2 counterexample: with a one-line document the hardcoded interval is
invalid, yet the run does not abort without writing — its trace is exactly
one write of spliced output to the target file. -/
theorem splice_writes_short_document :
    ReplaceUiComponents.run ["a\n"]
      = [⟨file_path, String.join (["a\n"] ++ [ReplaceUiComponents.new_code])⟩] ∧
    (ReplaceUiComponents.run ["a\n"]).length = 1 := by
  have h2 := new_lines_short ["a\n"] (by simp)
  exact ⟨by simp [ReplaceUiComponents.run, h2], rfl⟩

/-- C3: line-splice exactness.  For a valid half-open 1-indexed interval
`[start, stop)` the line-range rule yields
`lines[0:start-1] ++ B ++ lines[stop-1:]`, of length
`N - (stop - start) + len(B)`, with the lines before `start` and the lines
from `stop` onward identical to the original; the script's splice
`lines[:3627] + [new_code] + lines[4196:]` is exactly the instance
`start = 3628`, `stop = 4197`, `B = [new_code]`. -/
theorem line_splice_exactness
    (lines B : List String) (start stop : Nat)
    (h1 : 1 ≤ start) (h2 : start ≤ stop) (h3 : stop ≤ lines.length + 1) :
    lineRangeRule lines start stop B
        = lines.take (start - 1) ++ B ++ lines.drop (stop - 1) ∧
    (lineRangeRule lines start stop B).length
        = lines.length - (stop - start) + B.length ∧
    (lineRangeRule lines start stop B).take (start - 1) = lines.take (start - 1) ∧
    (lineRangeRule lines start stop B).drop (start - 1 + B.length)
        = lines.drop (stop - 1) ∧
    ReplaceUiComponents.new_lines lines
        = lineRangeRule lines 3628 4197 [ReplaceUiComponents.new_code] := by
  have hto : (lines.take (start - 1)).length = start - 1 := by
    rw [List.length_take]; omega
  refine ⟨rfl, ?_, ?_, ?_, ?_⟩
  · unfold lineRangeRule
    rw [List.length_append, List.length_append, hto, List.length_drop]
    omega
  · have h4 := List.take_left (lines.take (start - 1)) (B ++ lines.drop (stop - 1))
    rw [hto] at h4
    simpa [lineRangeRule, List.append_assoc] using h4
  · have h5 := List.drop_left (lines.take (start - 1) ++ B) (lines.drop (stop - 1))
    rw [List.length_append, hto] at h5
    simpa [lineRangeRule, List.append_assoc] using h5
  · unfold ReplaceUiComponents.new_lines lineRangeRule
    norm_num

/-- Witness for C3 at a three-line document, splicing `["x"]` over the
valid interval `[2, 3)`. -/
theorem line_splice_exactness_witness :
    1 ≤ 2 ∧ 2 ≤ 3 ∧ 3 ≤ (["a", "b", "c"] : List String).length + 1 ∧
    (lineRangeRule ["a", "b", "c"] 2 3 ["x"]).length
      = (["a", "b", "c"] : List String).length - (3 - 2) + (["x"] : List String).length :=
  ⟨by decide, by decide, by decide,
   (line_splice_exactness ["a", "b", "c"] ["x"] 2 3 (by decide) (by decide)
     (by decide)).2.1⟩

/-- C4: on the scenario buffer holding the token `phase === 'select'`
together with the identifiers `phaseLabel`, `phaseShift` and
`setPhaseFlag`, the phase-renaming rule `\bphase\s*===` rewrites exactly
the standalone token to `battle.phase === 'select'`, leaves every longer
identifier containing `phase` untouched, and reports change count 1. -/
theorem phase_rename_word_boundary_scenario :
    pySubn MigratePhase.pattern2
        "phase === \x27select\x27 phaseLabel phaseShift setPhaseFlag"
      = ("battle.phase === \x27select\x27 phaseLabel phaseShift setPhaseFlag", 1) := by
  decide

/-- C5: the phase-migration rule set is not idempotent.  One application
to `phase === 'select'` yields `battle.phase === 'select'`; a second
application of the same rule set changes the buffer again — to
`battle.battle.phase === 'select'` with a nonzero total change count —
because `\bphase\s*===` matches its own replacement text (the `.` before
`phase` is a word boundary). -/
theorem phase_ruleset_second_pass_rewrites :
    (MigratePhase.transform "phase === \x27select\x27").1
        = "battle.phase === \x27select\x27" ∧
    (MigratePhase.transform (MigratePhase.transform "phase === \x27select\x27").1).1
        ≠ (MigratePhase.transform "phase === \x27select\x27").1 ∧
    (MigratePhase.transform (MigratePhase.transform "phase === \x27select\x27").1).2.sum ≠ 0 ∧
    (MigratePhase.transform (MigratePhase.transform "phase === \x27select\x27").1).1
        = "battle.battle.phase === \x27select\x27" := by
  refine ⟨by decide, by decide, by decide, by decide⟩

/-- C6: in every backup-creating run, the very first durable write is the
backup: its content is exactly the pre-transform source content and its
path is the target path with the rule-set-specific suffix appended
(`.phase_backup` for `migrate_phase.py`, `.func_update_backup` for
`fix_functional_updates.py`); the only other write is the final overwrite
of the target with the transformed content. -/
theorem backup_path_and_content (c : String) :
    (MigratePhase.run c).head? = some ⟨file_path ++ ".phase_backup", c⟩ ∧
    (FixFunctionalUpdates.run c).head? = some ⟨file_path ++ ".func_update_backup", c⟩ ∧
    MigratePhase.run c
      = [⟨file_path ++ ".phase_backup", c⟩, ⟨file_path, (MigratePhase.transform c).1⟩] ∧
    FixFunctionalUpdates.run c
      = [⟨file_path ++ ".func_update_backup", c⟩,
         ⟨file_path, (FixFunctionalUpdates.transform c).1⟩] :=
  ⟨rfl, rfl, rfl, rfl⟩

/-- C7: rule sets compose sequentially: applying `[r1, r2]` equals
applying `r2` to the buffer produced by `r1`, with the change counts
concatenated in order; in particular the seven phase-migration
substitutions compose as nested sequential applications, each consuming
the previous rule's output buffer. -/
theorem ruleset_sequential_composition
    (r1 r2 : String → String × Nat) (buf : String) :
    (applyRules [r1, r2] buf).1 = (applyRules [r2] (applyRules [r1] buf).1).1 ∧
    (applyRules [r1, r2] buf).2
      = (applyRules [r1] buf).2 ++ (applyRules [r2] (applyRules [r1] buf).1).2 ∧
    (MigratePhase.transform buf).1 =
      (pySubn MigratePhase.pattern7 (pySubn MigratePhase.pattern6
        (pySubn MigratePhase.pattern5 (pySubn MigratePhase.pattern4
          (pySubn MigratePhase.pattern3 (pySubn MigratePhase.pattern2
            (pySubn MigratePhase.pattern1 buf).1).1).1).1).1).1).1 := by
  refine ⟨rfl, rfl, ?_⟩
  simp only [MigratePhase.transform, MigratePhase.rules, applyRules]

/-- C8 (amended): on the scenario buffer
`actions.setPlayer(prev => ({ ...prev, hp: 10 }))` the functional-update
rule matches once and rewrites it to
`actions.setPlayer({ ...player, hp: 10 })` — the greedy capture `([^}]+)`
retains the space before the closing brace — with change count 1. -/
theorem setPlayer_scenario_actual_rewrite :
    pySubn FixFunctionalUpdates.pattern1
        "actions.setPlayer(prev => (\x7b ...prev, hp: 10 \x7d))"
      = ("actions.setPlayer(\x7b ...player, hp: 10 \x7d)", 1) := by
  decide

/-- C8 counterexample: the claim's expected output
`actions.setPlayer({ ...player, hp: 10})` (no space before the closing
brace) is not what the rule produces on the scenario buffer. -/
theorem setPlayer_scenario_spec_output_differs :
    pySubn FixFunctionalUpdates.pattern1
        "actions.setPlayer(prev => (\x7b ...prev, hp: 10 \x7d))"
      ≠ ("actions.setPlayer(\x7b ...player, hp: 10\x7d)", 1) := by
  decide

/-- C9: a rule whose pattern has zero matches in the buffer is not an
error: the buffer is returned unchanged with change count 0, and when the
rule heads a rule set, the remaining rules are still applied to that
unchanged buffer. -/
theorem zero_match_rule_is_noop
    (m : Matcher) (s : String) (rs : List (String → String × Nat))
    (h : (pySubn m s).2 = 0) :
    (pySubn m s).1 = s ∧
    applyRules ((fun b => pySubn m b) :: rs) s
      = ((applyRules rs s).1, 0 :: (applyRules rs s).2) := by
  have h1 : (pySubn m s).1 = s := by
    have h3 := subnFuel_count_zero m s.data.length none s.data h
    show String.mk (subnFuel m s.data.length none s.data).1 = s
    rw [h3]
  refine ⟨h1, ?_⟩
  have hu : applyRules ((fun b => pySubn m b) :: rs) s
      = ((applyRules rs (pySubn m s).1).1,
         (pySubn m s).2 :: (applyRules rs (pySubn m s).1).2) := rfl
  rw [hu, h1, h]

/-- Witness for C9: the `setPhase` rule has zero matches in `"hello"`, and
the rule set continues with the second phase rule. -/
theorem zero_match_rule_is_noop_witness :
    (pySubn MigratePhase.pattern1 "hello").2 = 0 ∧
    ((pySubn MigratePhase.pattern1 "hello").1 = "hello" ∧
     applyRules ((fun b => pySubn MigratePhase.pattern1 b)
         :: [fun s => pySubn MigratePhase.pattern2 s]) "hello"
       = ((applyRules [fun s => pySubn MigratePhase.pattern2 s] "hello").1,
          0 :: (applyRules [fun s => pySubn MigratePhase.pattern2 s] "hello").2)) :=
  ⟨by decide,
   zero_match_rule_is_noop MigratePhase.pattern1 "hello"
     [fun s => pySubn MigratePhase.pattern2 s] (by decide)⟩

/-- C10: each script's transformation and write trace is a deterministic
pure function of the input content alone — equal inputs give equal output
buffers, equal per-rule change counts and equal write traces. -/
theorem transforms_deterministic
    (c₁ c₂ : String) (l₁ l₂ : List String) (hc : c₁ = c₂) (hl : l₁ = l₂) :
    MigratePhase.transform c₁ = MigratePhase.transform c₂ ∧
    FixFunctionalUpdates.transform c₁ = FixFunctionalUpdates.transform c₂ ∧
    MigratePhase.run c₁ = MigratePhase.run c₂ ∧
    FixFunctionalUpdates.run c₁ = FixFunctionalUpdates.run c₂ ∧
    ReplaceUiComponents.new_lines l₁ = ReplaceUiComponents.new_lines l₂ ∧
    ReplaceUiComponents.run l₁ = ReplaceUiComponents.run l₂ := by
  subst hc
  subst hl
  exact ⟨rfl, rfl, rfl, rfl, rfl, rfl⟩

/-- Witness for C10 at concrete equal inputs. -/
theorem transforms_deterministic_witness :
    ("phase" : String) = "phase" ∧ (["a"] : List String) = ["a"] ∧
    MigratePhase.transform "phase" = MigratePhase.transform "phase" :=
  ⟨rfl, rfl,
   (transforms_deterministic "phase" "phase" ["a"] ["a"] rfl rfl).1⟩

end Spec2Proof
